import Mathlib

/-!
Verification of the `blink_and_bloom` static-file server (`server.py`).

The program is shallowly embedded as pure Lean functions:

* `end_headers` models the `CORSHTTPRequestHandler.end_headers` override,
  acting on the list of response headers buffered so far.
* `main` models the `main()` function as a function from its inputs
  (`sys.argv`, the absolute path of the script file, the process
  environment, the outcome of the bind attempt, the Boolean result of
  `webbrowser.open`, and the event ending `serve_forever`) to the ordered
  list of observable actions it performs together with the process exit
  code.

Library behaviour that the program relies on is modelled from its
documented semantics: `os.path.dirname` is reimplemented on strings
(`dirname`), `webbrowser.open` reports failure through its Boolean return
value and does not raise, `socketserver.TCPServer(...)` either succeeds or
raises an `OSError` carrying an errno, and `serve_forever` runs until a
`KeyboardInterrupt` arrives.
-/

namespace BlinkBloom

/-- Strip trailing `'/'` characters (Python `str.rstrip('/')`). -/
def rstripSlash (cs : List Char) : List Char :=
  (cs.reverse.dropWhile (fun c => c = '/')).reverse

/-- Python `posixpath.dirname` on the character list of a path:
`i = p.rfind('/') + 1; head = p[:i]`, and trailing slashes are stripped
from `head` unless `head` consists only of slashes. -/
def dirnameChars (cs : List Char) : List Char :=
  let i : Nat :=
    match cs.reverse.findIdx? (fun c => c = '/') with
    | some k => cs.length - k
    | none => 0
  let head := cs.take i
  if head ≠ [] ∧ head.any (fun c => c ≠ '/') then rstripSlash head else head

/-- Python `os.path.dirname` for POSIX paths. -/
def dirname (p : String) : String := String.mk (dirnameChars p.data)

/-- A response header: field name and value. -/
abbrev Header := String × String

/-- `BaseHTTPRequestHandler.send_header`: append one header to the buffered
header list of the current response. -/
def send_header (hs : List Header) (k v : String) : List Header := hs ++ [(k, v)]

/-- The `CORSHTTPRequestHandler.end_headers` override: send the two
cross-origin isolation headers, then let the base class finalize the
buffered headers.  Input: the headers buffered by the generic handler for
the current response; output: the finalized header list. -/
def end_headers (hs : List Header) : List Header :=
  send_header
    (send_header hs "Cross-Origin-Embedder-Policy" "require-corp")
    "Cross-Origin-Opener-Policy" "same-origin"

/-- A response as the generic `SimpleHTTPRequestHandler` produced it for
some requested path: status code and buffered headers, before
`end_headers` finalizes them. -/
structure Response where
  status : Nat
  headers : List Header
deriving DecidableEq, Repr

/-- Finalizing a response runs the overridden `end_headers` on its
buffered headers. -/
def finalizeResponse (r : Response) : Response :=
  { r with headers := end_headers r.headers }

/-- A Python `OSError`: errno plus the strerror text.  `str(e)` renders as
`[Errno N] text`. -/
structure OSError where
  errno : Nat
  strerror : String
deriving DecidableEq, Repr

/-- Python `str(e)` for an `OSError`. -/
def OSError.str (e : OSError) : String :=
  "[Errno " ++ toString e.errno ++ "] " ++ e.strerror

/-- The numeric value of the `EADDRINUSE` errno on each operating system
the script can run on (OS semantics, external to the repository): 98 on
Linux, 48 on macOS and the BSDs. -/
inductive Platform where
  | linux
  | macos
deriving DecidableEq, Repr

/-- `EADDRINUSE` per platform. -/
def EADDRINUSE : Platform → Nat
  | Platform.linux => 98
  | Platform.macos => 48

/-- The `OSError` the socket library raises when the port is already
bound: errno `EADDRINUSE` of the running platform, strerror
`Address already in use`. -/
def addrInUseError (p : Platform) : OSError :=
  ⟨EADDRINUSE p, "Address already in use"⟩

/-- The observable actions `main` can perform, in program order. -/
inductive Action where
  | chdir (dir : String)
  | bind (host : String) (port : Nat)
  | printLine (s : String)
  | openBrowser (url : String)
  | serve
deriving DecidableEq, Repr

/-- The only way `serve_forever` ends: a manual interrupt (Ctrl+C). -/
inductive ServeEvent where
  | keyboardInterrupt
deriving DecidableEq, Repr

/-- `PORT = 8000` at the top of `main`. -/
def PORT : Nat := 8000

/-- The startup banner, printed once after the listener is bound.
`cwd` is `os.getcwd()`, i.e. the serving root after the `os.chdir`. -/
def bannerLines (port : Nat) (cwd : String) : List String :=
  [ "🌱 Blink & Bloom server starting at http://localhost:" ++ toString port
  , "📁 Serving files from: " ++ cwd
  , "\nAvailable pages:"
  , "  🎮 Main Game: http://localhost:" ++ toString port ++ "/index.html"
  , "  👁️  Gaze Test: http://localhost:" ++ toString port ++ "/gaze_test.html"
  , "\n⚠️  Note: Camera access requires HTTPS in production"
  , "💡 For HTTPS, use: python -m http.server --bind 127.0.0.1 --protocol HTTPS"
  , "\nPress Ctrl+C to stop the server" ]

/-- The shutdown notice printed by the `KeyboardInterrupt` handler. -/
def stoppedLine : String := "\n🛑 Server stopped"

/-- The two lines printed when `e.errno == 48`. -/
def portInUseLines (port : Nat) : List String :=
  [ "❌ Port " ++ toString port ++ " is already in use"
  , "Try a different port or stop the existing server" ]

/-- The line printed for any other `OSError` from the `try` block. -/
def errorStartingLine (e : OSError) : String :=
  "❌ Error starting server: " ++ e.str

/-- The page `webbrowser.open` is pointed at. -/
def indexUrl (port : Nat) : String :=
  "http://localhost:" ++ toString port ++ "/index.html"

/-- Shallow embedding of `main()`.  Inputs:

* `argv` — the full `sys.argv`, program name included;
* `absFile` — `os.path.abspath(__file__)`, the absolute path of the
  script (the `abspath` resolution happens outside the program);
* `env` — the process environment (the program never reads it);
* `bindErr` — `none` when `socketserver.TCPServer(("", PORT), ...)`
  binds successfully, `some e` when it raises `OSError e`;
* `browserOk` — the Boolean result of `webbrowser.open`, which reports
  failure through its return value (the program discards it);
* `ev` — the event that ends `serve_forever`.

Output: the ordered list of observable actions and the process exit code
(the script calls `main()` at top level and `main` always returns
normally, so the interpreter exits with code 0). -/
def main (argv : List String) (absFile : String) (env : List (String × String))
    (bindErr : Option OSError) (browserOk : Bool) (ev : ServeEvent) :
    List Action × Nat :=
  let port := PORT
  let root := dirname absFile
  let pre : List Action := [Action.chdir root, Action.bind "" port]
  match bindErr with
  | some e =>
      if e.errno = 48 then
        (pre ++ (portInUseLines port).map Action.printLine, 0)
      else
        (pre ++ [Action.printLine (errorStartingLine e)], 0)
  | none =>
      let banner := (bannerLines port root).map Action.printLine
      let browser : List Action :=
        if 1 < argv.length ∧ argv.getD 1 "" = "--no-browser" then []
        else [Action.openBrowser (indexUrl port)]
      match ev with
      | ServeEvent.keyboardInterrupt =>
          (pre ++ banner ++ browser ++ [Action.serve, Action.printLine stoppedLine], 0)

/-- Is this action a browser-open call? -/
def isOpenBrowser : Action → Bool
  | Action.openBrowser _ => true
  | _ => false

/-- Is this action a working-directory change? -/
def isChdir : Action → Bool
  | Action.chdir _ => true
  | _ => false

/-- Is this action a bind attempt? -/
def isBind : Action → Bool
  | Action.bind _ _ => true
  | _ => false

/-- Unfolding `main` on a successful bind. -/
lemma main_none_eq (argv : List String) (absFile : String)
    (env : List (String × String)) (br : Bool) (ev : ServeEvent) :
    main argv absFile env none br ev =
      ([Action.chdir (dirname absFile), Action.bind "" 8000] ++
        (bannerLines 8000 (dirname absFile)).map Action.printLine ++
        (if 1 < argv.length ∧ argv.getD 1 "" = "--no-browser" then []
         else [Action.openBrowser (indexUrl 8000)]) ++
        [Action.serve, Action.printLine stoppedLine], 0) := by
  cases ev
  rfl

/-- Unfolding `main` on a failed bind. -/
lemma main_some_eq (argv : List String) (absFile : String)
    (env : List (String × String)) (e : OSError) (br : Bool) (ev : ServeEvent) :
    main argv absFile env (some e) br ev =
      (if e.errno = 48 then
        ([Action.chdir (dirname absFile), Action.bind "" 8000] ++
          (portInUseLines 8000).map Action.printLine, 0)
       else
        ([Action.chdir (dirname absFile), Action.bind "" 8000] ++
          [Action.printLine (errorStartingLine e)], 0)) := by
  by_cases h : e.errno = 48 <;> simp [main, h, PORT]

/-- C1: For every response, whatever its status code and the headers the
generic handler buffered for the requested path, the finalized headers
contain both `Cross-Origin-Embedder-Policy: require-corp` and
`Cross-Origin-Opener-Policy: same-origin`, appended after the response
was generated (the buffered headers are kept, in order, in front) and
before the headers are finalized. -/
theorem c1_cors_headers_on_every_response (r : Response) :
    ("Cross-Origin-Embedder-Policy", "require-corp") ∈ (finalizeResponse r).headers ∧
    ("Cross-Origin-Opener-Policy", "same-origin") ∈ (finalizeResponse r).headers ∧
    (finalizeResponse r).headers =
      r.headers ++ [("Cross-Origin-Embedder-Policy", "require-corp"),
                    ("Cross-Origin-Opener-Policy", "same-origin")] ∧
    (finalizeResponse r).status = r.status := by
  refine ⟨?_, ?_, ?_, rfl⟩ <;>
    simp [finalizeResponse, end_headers, send_header]

/-- C2: Invoking the program with the `--no-browser` argument performs no
browser-open call; invoking it with any argument list that does not
contain `--no-browser` performs exactly one browser-open call, targeting
`http://localhost:8000/index.html`. -/
theorem c2_no_browser_flag (prog absFile : String) (rest args : List String)
    (env : List (String × String)) (br : Bool) (ev : ServeEvent)
    (h : "--no-browser" ∉ args) :
    ((main (prog :: "--no-browser" :: rest) absFile env none br ev).1.filter
        isOpenBrowser = []) ∧
    ((main (prog :: args) absFile env none br ev).1.filter isOpenBrowser
      = [Action.openBrowser "http://localhost:8000/index.html"]) := by
  constructor
  · rw [main_none_eq]
    simp [bannerLines, isOpenBrowser, List.filter_append]
  · rw [main_none_eq]
    have hbr : ¬(1 < (prog :: args).length ∧ (prog :: args).getD 1 "" = "--no-browser") := by
      cases args with
      | nil => simp
      | cons a t =>
        intro hc
        have ha : a = "--no-browser" := by simpa using hc.2
        exact h (by simp [ha])
    rw [if_neg hbr]
    simp [bannerLines, isOpenBrowser, List.filter_append, indexUrl]
    decide

/-- C2 witness: concrete invocations exercising both directions. -/
theorem c2_no_browser_flag_witness :
    (("--no-browser" : String) ∉ ["--verbose"]) ∧
    (((main ["server.py", "--no-browser"] "/srv/app/server.py" [] none true
        ServeEvent.keyboardInterrupt).1.filter isOpenBrowser = []) ∧
     ((main ["server.py", "--verbose"] "/srv/app/server.py" [] none true
        ServeEvent.keyboardInterrupt).1.filter isOpenBrowser
       = [Action.openBrowser "http://localhost:8000/index.html"])) :=
  ⟨by decide,
   c2_no_browser_flag "server.py" "/srv/app/server.py" [] ["--verbose"] [] true
     ServeEvent.keyboardInterrupt (by decide)⟩

/-- C3: evaluation of the bind-failure handler at the failing input. On
Linux, a port-already-bound failure carries errno `EADDRINUSE = 98`, but
the code compares the errno against the literal 48 (the macOS value, as
its own `# Address already in use` comment intends), so the run prints
the generic startup-error line and not the dedicated port-in-use line;
on macOS (errno 48) the dedicated line is printed. -/
theorem c3_port_in_use_check_is_macos_only :
    (Action.printLine "❌ Port 8000 is already in use" ∉
      (main ["server.py"] "/srv/blink_and_bloom/server.py" []
        (some (addrInUseError Platform.linux)) true ServeEvent.keyboardInterrupt).1) ∧
    (Action.printLine "❌ Error starting server: [Errno 98] Address already in use" ∈
      (main ["server.py"] "/srv/blink_and_bloom/server.py" []
        (some (addrInUseError Platform.linux)) true ServeEvent.keyboardInterrupt).1) ∧
    (Action.printLine "❌ Port 8000 is already in use" ∈
      (main ["server.py"] "/srv/blink_and_bloom/server.py" []
        (some (addrInUseError Platform.macos)) true ServeEvent.keyboardInterrupt).1) := by
  decide

/-- C4: when the bind succeeds and a `KeyboardInterrupt` arrives while
serving, the run ends with the serve loop followed by the shutdown
notice, and the process exit code is 0. -/
theorem c4_interrupt_clean_exit (argv : List String) (absFile : String)
    (env : List (String × String)) (br : Bool) :
    (main argv absFile env none br ServeEvent.keyboardInterrupt).2 = 0 ∧
    ∃ tr, (main argv absFile env none br ServeEvent.keyboardInterrupt).1
      = tr ++ [Action.serve, Action.printLine "\n🛑 Server stopped"] := by
  rw [main_none_eq]
  refine ⟨rfl, ⟨[Action.chdir (dirname absFile), Action.bind "" 8000] ++
    (bannerLines 8000 (dirname absFile)).map Action.printLine ++
    (if 1 < argv.length ∧ argv.getD 1 "" = "--no-browser" then []
     else [Action.openBrowser (indexUrl 8000)]), ?_⟩⟩
  simp [stoppedLine]

/-- C5: in every run, the first action resolves the serving root to the
directory containing the script file and changes the working directory
to it, the second action is the bind attempt, and no other
working-directory change ever happens. -/
theorem c5_chdir_to_script_dir_before_bind (argv : List String) (absFile : String)
    (env : List (String × String)) (bindErr : Option OSError) (br : Bool)
    (ev : ServeEvent) :
    ((main argv absFile env bindErr br ev).1)[0]? = some (Action.chdir (dirname absFile)) ∧
    ((main argv absFile env bindErr br ev).1)[1]? = some (Action.bind "" 8000) ∧
    (main argv absFile env bindErr br ev).1.filter isChdir
      = [Action.chdir (dirname absFile)] := by
  cases bindErr with
  | none =>
    rw [main_none_eq]
    refine ⟨rfl, rfl, ?_⟩
    simp [bannerLines, isChdir, List.filter_append]
  | some e =>
    rw [main_some_eq]
    split <;>
      exact ⟨rfl, rfl, by simp [portInUseLines, isChdir]⟩

/-- C6: in every run — whatever the argument list, the environment, and
the bind outcome — exactly one bind attempt happens and it targets port
8000. -/
theorem c6_port_fixed_8000 (argv : List String) (absFile : String)
    (env : List (String × String)) (bindErr : Option OSError) (br : Bool)
    (ev : ServeEvent) :
    (main argv absFile env bindErr br ev).1.filter isBind = [Action.bind "" 8000] := by
  cases bindErr with
  | none =>
    rw [main_none_eq]
    simp [bannerLines, isBind, List.filter_append]
  | some e =>
    rw [main_some_eq]
    split <;> simp [portInUseLines, isBind]

/-- C7: the outcome of the browser-open call (`webbrowser.open` reports
failure through its Boolean result) never changes the run: the trace and
exit code are identical for success and failure, and the serve loop is
reached in either case. -/
theorem c7_browser_failure_never_fatal (argv : List String) (absFile : String)
    (env : List (String × String)) (br br' : Bool) (ev : ServeEvent) :
    main argv absFile env none br ev = main argv absFile env none br' ev ∧
    Action.serve ∈ (main argv absFile env none br ev).1 := by
  refine ⟨rfl, ?_⟩
  rw [main_none_eq]
  simp

/-- C8: when the bind fails, no browser-open call is attempted at all;
when the bind succeeds, the trace starts with the chdir, the bind, and
the full startup banner, and every browser-open call lies in the
remainder after them. -/
theorem c8_no_browser_open_before_successful_bind (argv : List String)
    (absFile : String) (env : List (String × String)) (br : Bool)
    (ev : ServeEvent) :
    (∀ e, (main argv absFile env (some e) br ev).1.filter isOpenBrowser = []) ∧
    (∃ rest, (main argv absFile env none br ev).1
        = Action.chdir (dirname absFile) :: Action.bind "" 8000 ::
            ((bannerLines 8000 (dirname absFile)).map Action.printLine ++ rest) ∧
      rest.filter isOpenBrowser
        = (main argv absFile env none br ev).1.filter isOpenBrowser) := by
  constructor
  · intro e
    rw [main_some_eq]
    split <;> simp [portInUseLines, isOpenBrowser]
  · refine ⟨(if 1 < argv.length ∧ argv.getD 1 "" = "--no-browser" then []
      else [Action.openBrowser (indexUrl 8000)]) ++
      [Action.serve, Action.printLine stoppedLine], ?_, ?_⟩
    · rw [main_none_eq]
      simp
    · rw [main_none_eq]
      simp [bannerLines, isOpenBrowser, List.filter_append]

/-- C9: on any bind failure the process exit code is 0: `main` prints a
diagnostic as its last action, never reaches the serve loop, and returns
normally. -/
theorem c9_bind_failure_exit_code_zero (argv : List String) (absFile : String)
    (env : List (String × String)) (e : OSError) (br : Bool) (ev : ServeEvent) :
    (main argv absFile env (some e) br ev).2 = 0 ∧
    (∃ tr s, (main argv absFile env (some e) br ev).1 = tr ++ [Action.printLine s]) ∧
    Action.serve ∉ (main argv absFile env (some e) br ev).1 := by
  rw [main_some_eq]
  by_cases h : e.errno = 48
  · rw [if_pos h]
    refine ⟨rfl, ⟨[Action.chdir (dirname absFile), Action.bind "" 8000,
      Action.printLine ("❌ Port " ++ toString 8000 ++ " is already in use")],
      "Try a different port or stop the existing server", ?_⟩, ?_⟩
    · simp [portInUseLines]
    · simp [portInUseLines]
  · rw [if_neg h]
    exact ⟨rfl, ⟨[Action.chdir (dirname absFile), Action.bind "" 8000],
      errorStartingLine e, by simp⟩, by simp⟩

/-- C10: the `--no-browser` argument suppresses the browser open only
when it is the first command-line argument: with it first, no
browser-open happens; with any other string first — even when
`--no-browser` appears later in the argument list — exactly one
browser-open call is made, at `http://localhost:8000/index.html`. -/
theorem c10_flag_only_in_first_position (prog s absFile : String)
    (rest rest2 : List String) (env : List (String × String)) (br : Bool)
    (ev : ServeEvent) (h : s ≠ "--no-browser") :
    ((main (prog :: "--no-browser" :: rest) absFile env none br ev).1.filter
        isOpenBrowser = []) ∧
    ((main (prog :: s :: rest2) absFile env none br ev).1.filter isOpenBrowser
      = [Action.openBrowser "http://localhost:8000/index.html"]) := by
  constructor
  · rw [main_none_eq]
    simp [bannerLines, isOpenBrowser, List.filter_append]
  · rw [main_none_eq]
    rw [if_neg (by simp [h])]
    simp [bannerLines, isOpenBrowser, List.filter_append, indexUrl]
    decide

/-- C10 witness: `--no-browser` in second position does not suppress the
browser open. -/
theorem c10_flag_only_in_first_position_witness :
    (("--quiet" : String) ≠ "--no-browser") ∧
    (((main ["server.py", "--no-browser"] "/srv/app/server.py" [] none true
        ServeEvent.keyboardInterrupt).1.filter isOpenBrowser = []) ∧
     ((main ["server.py", "--quiet", "--no-browser"] "/srv/app/server.py" [] none
        true ServeEvent.keyboardInterrupt).1.filter isOpenBrowser
       = [Action.openBrowser "http://localhost:8000/index.html"])) :=
  ⟨by decide,
   c10_flag_only_in_first_position "server.py" "--quiet" "/srv/app/server.py" []
     ["--no-browser"] [] true ServeEvent.keyboardInterrupt (by decide)⟩

end BlinkBloom
